import Mathlib

/-!
Verification of the prompt-templating and structured-output-validation
pipeline of the sqlite_agent repository.

The repository's notebook (notebooks/prompting_llama3.ipynb) drives two
components:

* `PromptBuilder` (imported in the notebook from `src.llm.llm_prompt`):
  constructed with a system-instructions template and an outer framing
  template, accumulates variables via `add_variables`, and produces the
  final prompt via `build_prompt` by two-stage substitution.
* a structured output parser: the notebook declares a one-field pydantic
  schema `SQLQuery` (field `query : str`, required, no further
  constraints) and parses the raw model text with a parser whose
  `parse` extracts a JSON payload embedded in the raw text, decodes it
  and validates it against the schema.

The Python module defining `PromptBuilder` and the library code behind
`parse` are not part of the repository snapshot, so their behaviour is
modelled from the specification; the `SQLQuery` schema itself is taken
from the notebook source.  Templates use brace-delimited placeholders;
braces are written via their code points below.
-/

/-- Opening brace character of a placeholder. -/
def openBraceChar : Char := Char.ofNat 123

/-- Closing brace character of a placeholder. -/
def closeBraceChar : Char := Char.ofNat 125

/-- Double-quote character used by JSON string syntax. -/
def quoteChar : Char := Char.ofNat 34

/-- Backslash character used by JSON escape sequences. -/
def backslashChar : Char := Char.ofNat 92

/-- Lookup of a key in an association list of variable bindings; the first
matching entry wins, so newer bindings are stored in front. -/
def lookupVar : List (String × String) → String → Option String
  | [], _ => none
  | kv :: rest, k => if kv.1 = k then some kv.2 else lookupVar rest k

/-- Modelled from the spec: error raised by the prompt builder.  The
repository's `src/llm/llm_prompt.py` is not in the snapshot; per the
specification, `build_prompt` fails with a `MissingVariableError` when a
placeholder has no bound value, and template substitution may also fail
on a bare malformed placeholder (an unclosed brace). -/
inductive BuildError where
  | missingVariable (name : String)
  | unclosedPlaceholder
deriving DecidableEq

mutual
/-- Modelled from the spec: substitution of brace-delimited placeholders
in a template (character list) using the accumulated variable set.
Literal characters are copied; an opening brace starts a placeholder. -/
def substChars (vars : List (String × String)) : List Char → Except BuildError (List Char)
  | [] => Except.ok []
  | c :: rest =>
    if c = openBraceChar then substPlaceholder vars [] rest
    else match substChars vars rest with
      | Except.ok out => Except.ok (c :: out)
      | Except.error e => Except.error e

/-- Modelled from the spec: consumes a placeholder name up to the closing
brace, then substitutes the bound value or fails with
`BuildError.missingVariable`. -/
def substPlaceholder (vars : List (String × String)) (acc : List Char) : List Char → Except BuildError (List Char)
  | [] => Except.error BuildError.unclosedPlaceholder
  | c :: rest =>
    if c = closeBraceChar then
      match lookupVar vars (String.mk acc.reverse) with
      | none => Except.error (BuildError.missingVariable (String.mk acc.reverse))
      | some v =>
        match substChars vars rest with
        | Except.ok out => Except.ok (v.data ++ out)
        | Except.error e => Except.error e
    else substPlaceholder vars (c :: acc) rest
end

mutual
/-- Names of the (well-closed) placeholders occurring in a template. -/
def phChars : List Char → List String
  | [] => []
  | c :: rest => if c = openBraceChar then phAcc [] rest else phChars rest

/-- Helper of `phChars` inside a placeholder, accumulating its name. -/
def phAcc (acc : List Char) : List Char → List String
  | [] => []
  | c :: rest =>
    if c = closeBraceChar then String.mk acc.reverse :: phChars rest
    else phAcc (c :: acc) rest
end

mutual
/-- Well-formedness of a template: every opening brace is closed. -/
def wfChars : List Char → Bool
  | [] => true
  | c :: rest => if c = openBraceChar then wfAcc rest else wfChars rest

/-- Helper of `wfChars` inside a placeholder. -/
def wfAcc : List Char → Bool
  | [] => false
  | c :: rest => if c = closeBraceChar then wfChars rest else wfAcc rest
end

/-- Modelled from the spec: the prompt builder of `src/llm/llm_prompt.py`
(not in the snapshot).  The notebook constructs it as
`PromptBuilder(system_instructions=..., prompt=...)`; it holds the two
caller-owned templates and the accumulated variable set. -/
structure PromptBuilder where
  system_instructions : String
  prompt : String
  vars : List (String × String)
deriving DecidableEq

/-- Modelled from the spec: `add_variables` merges the given key-value
pairs into the accumulated variable set; later calls override earlier
ones for the same key.  New bindings are put in front (in reverse, so
the last pair of one call wins) and `lookupVar` takes the first hit. -/
def PromptBuilder.add_variables (b : PromptBuilder) (m : List (String × String)) : PromptBuilder :=
  { b with vars := m.reverse ++ b.vars }

/-- Modelled from the spec: `build_prompt` first substitutes the
accumulated variables into the system-instructions template, then
substitutes the resolved string (bound to the placeholder name
`system_instructions`) together with the accumulated variables into the
outer framing template. -/
def PromptBuilder.build_prompt (b : PromptBuilder) : Except BuildError String :=
  match substChars b.vars b.system_instructions.data with
  | Except.error e => Except.error e
  | Except.ok sys =>
    match substChars (("system_instructions", String.mk sys) :: b.vars) b.prompt.data with
    | Except.error e => Except.error e
    | Except.ok out => Except.ok (String.mk out)

/-- Observable operations on a prompt builder, used to state frame and
idempotence properties of the builder's state. -/
inductive BuilderOp where
  | addVars (m : List (String × String))
  | build

/-- Modelled from the spec: one step of the builder's state machine.
`add_variables` only mutates the accumulated variable set and produces
no output; `build_prompt` produces the formatted prompt and, having no
side effects, leaves the state untouched (the result is not cached in
the state). -/
def applyOp (b : PromptBuilder) : BuilderOp → PromptBuilder × Option (Except BuildError String)
  | BuilderOp.addVars m => (b.add_variables m, none)
  | BuilderOp.build => (b, some b.build_prompt)

/-! ### General lemmas about substitution -/

/-- Substitution only depends on the variable set through the lookups of
the placeholders actually occurring in the template. -/
theorem subst_congr (vars1 vars2 : List (String × String)) :
    ∀ cs : List Char,
      ((∀ n ∈ phChars cs, lookupVar vars1 n = lookupVar vars2 n) →
        substChars vars1 cs = substChars vars2 cs)
      ∧ (∀ acc, (∀ n ∈ phAcc acc cs, lookupVar vars1 n = lookupVar vars2 n) →
        substPlaceholder vars1 acc cs = substPlaceholder vars2 acc cs)
  | [] => ⟨fun _ => rfl, fun _ _ => rfl⟩
  | c :: rest => by
      have ih := subst_congr vars1 vars2 rest
      constructor
      · intro hlk
        by_cases hc : c = openBraceChar
        · simp only [substChars, hc, if_pos rfl] at *
          exact ih.2 [] (by simpa [phChars, hc] using hlk)
        · simp only [substChars, if_neg hc]
          rw [ih.1 (by simpa [phChars, hc] using hlk)]
      · intro acc hlk
        by_cases hc : c = closeBraceChar
        · simp only [substPlaceholder, hc, if_pos rfl]
          have hname : lookupVar vars1 (String.mk acc.reverse) = lookupVar vars2 (String.mk acc.reverse) := by
            apply hlk
            simp [phAcc, hc]
          rw [hname]
          cases hv : lookupVar vars2 (String.mk acc.reverse) with
          | none => rfl
          | some v =>
            rw [ih.1 (by intro n hn; exact hlk n (by simp [phAcc, hc, hn]))]
            simp
        · simp only [substPlaceholder, if_neg hc]
          exact ih.2 (c :: acc) (by simpa [phAcc, hc] using hlk)

/-- If some placeholder of the template has no bound value, substitution
fails with a `missingVariable` error whose variable is indeed unbound. -/
theorem subst_missing (vars : List (String × String)) :
    ∀ cs : List Char,
      ((∃ n ∈ phChars cs, lookupVar vars n = none) →
        ∃ k, substChars vars cs = Except.error (BuildError.missingVariable k) ∧ lookupVar vars k = none)
      ∧ (∀ acc, (∃ n ∈ phAcc acc cs, lookupVar vars n = none) →
        ∃ k, substPlaceholder vars acc cs = Except.error (BuildError.missingVariable k) ∧ lookupVar vars k = none)
  | [] => by
      refine ⟨fun h => absurd h (by simp [phChars]), fun acc h => absurd h (by simp [phAcc])⟩
  | c :: rest => by
      have ih := subst_missing vars rest
      constructor
      · intro hex
        by_cases hc : c = openBraceChar
        · simp only [substChars, hc, if_pos rfl]
          exact ih.2 [] (by simpa [phChars, hc] using hex)
        · simp only [substChars, if_neg hc]
          obtain ⟨k, hk, hnone⟩ := ih.1 (by simpa [phChars, hc] using hex)
          exact ⟨k, by rw [hk], hnone⟩
      · intro acc hex
        by_cases hc : c = closeBraceChar
        · simp only [substPlaceholder, hc, if_pos rfl]
          cases hv : lookupVar vars (String.mk acc.reverse) with
          | none => exact ⟨String.mk acc.reverse, rfl, hv⟩
          | some v =>
            have hmem : phAcc acc (c :: rest) = String.mk acc.reverse :: phChars rest := by
              simp [phAcc, hc]
            have hex' : ∃ n ∈ phChars rest, lookupVar vars n = none := by
              obtain ⟨n, hn, hnone⟩ := hex
              rw [hmem, List.mem_cons] at hn
              rcases hn with hn | hn
              · rw [hn, hv] at hnone
                cases hnone
              · exact ⟨n, hn, hnone⟩
            obtain ⟨k, hk, hnone⟩ := ih.1 hex'
            refine ⟨k, ?_, hnone⟩
            rw [hk]
            simp
        · simp only [substPlaceholder, if_neg hc]
          exact ih.2 (c :: acc) (by simpa [phAcc, hc] using hex)

/-- If the template is well formed and every placeholder is bound,
substitution succeeds. -/
theorem subst_total (vars : List (String × String)) :
    ∀ cs : List Char,
      (wfChars cs = true → (∀ n ∈ phChars cs, (lookupVar vars n).isSome = true) →
        ∃ out, substChars vars cs = Except.ok out)
      ∧ (∀ acc, wfAcc cs = true → (∀ n ∈ phAcc acc cs, (lookupVar vars n).isSome = true) →
        ∃ out, substPlaceholder vars acc cs = Except.ok out)
  | [] => by
      refine ⟨fun _ _ => ⟨[], rfl⟩, fun acc hwf _ => absurd hwf (by simp [wfAcc])⟩
  | c :: rest => by
      have ih := subst_total vars rest
      constructor
      · intro hwf hall
        by_cases hc : c = openBraceChar
        · simp only [substChars, hc, if_pos rfl]
          exact ih.2 [] (by simpa [wfChars, hc] using hwf) (by simpa [phChars, hc] using hall)
        · simp only [substChars, if_neg hc]
          obtain ⟨out, hout⟩ := ih.1 (by simpa [wfChars, hc] using hwf) (by simpa [phChars, hc] using hall)
          exact ⟨c :: out, by rw [hout]⟩
      · intro acc hwf hall
        by_cases hc : c = closeBraceChar
        · simp only [substPlaceholder, hc, if_pos rfl]
          have hname : (lookupVar vars (String.mk acc.reverse)).isSome = true := by
            apply hall
            simp [phAcc, hc]
          cases hv : lookupVar vars (String.mk acc.reverse) with
          | none => rw [hv] at hname; cases hname
          | some v =>
            obtain ⟨out, hout⟩ := ih.1 (by simpa [wfAcc, hc] using hwf)
              (by intro n hn; exact hall n (by simp [phAcc, hc, hn]))
            refine ⟨v.data ++ out, ?_⟩
            rw [hout]
            simp
        · simp only [substPlaceholder, if_neg hc]
          exact ih.2 (c :: acc) (by simpa [wfAcc, hc] using hwf) (by simpa [phAcc, hc] using hall)

/-- Lookup after adding a single binding: the added key hits the new
value, every other key is unaffected. -/
theorem lookupVar_add_single (vars : List (String × String)) (k v kq : String) :
    lookupVar ([(k, v)].reverse ++ vars) kq = if k = kq then some v else lookupVar vars kq := by
  simp [lookupVar]

/-! ### Structured output parser

The notebook validates the model's raw text with a parser built around
the pydantic schema `SQLQuery` (notebook cell: `class SQLQuery(BaseModel):
query: str = Field(..., description="The SQL query string")`).  The
parser implementation is library code outside the snapshot; it is
modelled from the specification: locate a structured JSON payload inside
the raw text (possibly surrounded by prose or code fencing), decode it,
and validate it against the declared schema. -/

/-- JSON values produced by decoding a flat structured payload; string
and number values suffice for the observed single-string-field schema
(any other payload shape fails to decode, which the specification also
maps to a malformed-output failure). -/
inductive JsonValue where
  | str (s : String)
  | num (n : Int)
deriving DecidableEq

/-- Whitespace recognized between JSON tokens. -/
def isWsChar (c : Char) : Bool := c = ' ' || c = '\n' || c = '\t' || c = '\r'

/-- Drops leading JSON whitespace. -/
def skipWs (cs : List Char) : List Char := cs.dropWhile isWsChar

/-- Decodes one JSON string escape character (the character following a
backslash). -/
def escDecode (c : Char) : Option Char :=
  if c = quoteChar then some quoteChar
  else if c = backslashChar then some backslashChar
  else if c = '/' then some '/'
  else if c = 'n' then some '\n'
  else if c = 't' then some '\t'
  else if c = 'r' then some '\r'
  else if c = 'b' then some (Char.ofNat 8)
  else if c = 'f' then some (Char.ofNat 12)
  else none

/-- Parses the body of a JSON string after its opening quote; the `Bool`
mode records whether the previous character was an unprocessed
backslash.  Returns the decoded characters and the input remaining after
the closing quote. -/
def parseStringAux : Bool → List Char → Option (List Char × List Char)
  | _, [] => none
  | true, c :: rest =>
    match escDecode c with
    | some d =>
      match parseStringAux false rest with
      | some (s, r) => some (d :: s, r)
      | none => none
    | none => none
  | false, c :: rest =>
    if c = quoteChar then some ([], rest)
    else if c = backslashChar then parseStringAux true rest
    else
      match parseStringAux false rest with
      | some (s, r) => some (c :: s, r)
      | none => none

/-- Parses the body of a JSON string after its opening quote, returning
the decoded characters and the input remaining after the closing
quote. -/
def parseStringChars (cs : List Char) : Option (List Char × List Char) :=
  parseStringAux false cs

/-- Encodes one character for inclusion in a JSON string literal. -/
def escEncodeChar (c : Char) : List Char :=
  if c = quoteChar then [backslashChar, quoteChar]
  else if c = backslashChar then [backslashChar, backslashChar]
  else if c = '\n' then [backslashChar, 'n']
  else if c = '\t' then [backslashChar, 't']
  else if c = '\r' then [backslashChar, 'r']
  else [c]

/-- Encodes a character sequence as the body of a JSON string literal. -/
def encodeStringChars : List Char → List Char
  | [] => []
  | c :: rest => escEncodeChar c ++ encodeStringChars rest

/-- Numeric value of a digit sequence. -/
def digitsToNat (ds : List Char) : Nat := ds.foldl (fun a c => 10 * a + (c.toNat - 48)) 0

/-- Parses the digits of a JSON integer (after an optional sign). -/
def parseNumberTail (neg : Bool) (cs : List Char) : Option (JsonValue × List Char) :=
  let ds := cs.takeWhile Char.isDigit
  let r := cs.dropWhile Char.isDigit
  if ds.isEmpty then none
  else some (JsonValue.num (if neg then -(digitsToNat ds : Int) else (digitsToNat ds : Int)), r)

/-- Parses one JSON value (string or integer) after optional leading
whitespace. -/
def parseValueChars (cs : List Char) : Option (JsonValue × List Char) :=
  match skipWs cs with
  | [] => none
  | c :: rest =>
    if c = quoteChar then
      match parseStringChars rest with
      | some (s, r) => some (JsonValue.str (String.mk s), r)
      | none => none
    else if c = '-' then parseNumberTail true rest
    else if c.isDigit then parseNumberTail false (c :: rest)
    else none

/-- Parses one `"key": value` member of a JSON object. -/
def parsePairChars (cs : List Char) : Option ((String × JsonValue) × List Char) :=
  match skipWs cs with
  | [] => none
  | c :: rest =>
    if c = quoteChar then
      match parseStringChars rest with
      | some (k, rest2) =>
        match skipWs rest2 with
        | d :: rest3 =>
          if d = ':' then
            match parseValueChars rest3 with
            | some (v, rest4) => some ((String.mk k, v), rest4)
            | none => none
          else none
        | [] => none
      | none => none
    else none

/-- Parses the non-empty member list of a JSON object up to and
including the closing brace; the fuel bounds the number of members. -/
def parseMembersAux : Nat → List Char → Option (List (String × JsonValue) × List Char)
  | 0, _ => none
  | fuel + 1, cs =>
    match parsePairChars cs with
    | none => none
    | some (kv, rest) =>
      match skipWs rest with
      | [] => none
      | d :: rest2 =>
        if d = closeBraceChar then some ([kv], rest2)
        else if d = ',' then
          match parseMembersAux fuel rest2 with
          | some (kvs, rest3) => some (kv :: kvs, rest3)
          | none => none
        else none

/-- Parses a JSON object, returning its members and the remaining
input. -/
def parseObjectChars (cs : List Char) : Option (List (String × JsonValue) × List Char) :=
  match skipWs cs with
  | [] => none
  | c :: rest =>
    if c = openBraceChar then
      match skipWs rest with
      | [] => none
      | d :: rest2 =>
        if d = closeBraceChar then some ([], rest2)
        else parseMembersAux (rest.length + 1) rest
    else none

/-- Modelled from the spec: locates the structured payload embedded in
the raw text, as the span from the first opening brace to the last
closing brace; surrounding prose or code fencing is discarded. -/
def extractPayload (cs : List Char) : Option (List Char) :=
  let fromOpen := cs.dropWhile (fun c => !(c = openBraceChar))
  match fromOpen with
  | [] => none
  | _ :: _ =>
    let trimmed := (fromOpen.reverse.dropWhile (fun c => !(c = closeBraceChar))).reverse
    if trimmed.isEmpty then none else some trimmed

/-- Decodes an extracted payload as a single JSON object with nothing
but whitespace after it. -/
def decodePayload (cs : List Char) : Option (List (String × JsonValue)) :=
  match parseObjectChars cs with
  | some (obj, rest) => if skipWs rest = [] then some obj else none
  | none => none

/-- Value of a field in a decoded object; the last binding of a
duplicated key wins, as when building a dictionary left to right. -/
def getField (obj : List (String × JsonValue)) (k : String) : Option JsonValue :=
  obj.foldl (fun acc kv => if kv.1 = k then some kv.2 else acc) none

/-- The validated record produced by the parser, from the notebook's
pydantic schema: exactly one required field `query` of string type. -/
structure SQLQuery where
  query : String
deriving DecidableEq

/-- Modelled from the spec: the error raised by the structured output
parser when no decodable payload is found, decoding fails, or the
required field is missing or has the wrong type. -/
inductive MalformedOutputError where
  | mk (msg : String)
deriving DecidableEq

/-- Validates a decoded object against the `SQLQuery` schema of the
notebook: the field `query` must be present and be a string; the
declaration `query: str = Field(...)` imposes no further constraint. -/
def validateSQLQuery (obj : List (String × JsonValue)) : Except MalformedOutputError SQLQuery :=
  match getField obj "query" with
  | some (JsonValue.str s) => Except.ok (SQLQuery.mk s)
  | some _ => Except.error (MalformedOutputError.mk "field query has wrong type")
  | none => Except.error (MalformedOutputError.mk "missing required field: query")

/-- Modelled from the spec: `parse` locates the structured payload in
the raw text, decodes it and validates it against the schema, failing
with `MalformedOutputError` at any of the three stages. -/
def parse (raw : String) : Except MalformedOutputError SQLQuery :=
  match extractPayload raw.data with
  | none => Except.error (MalformedOutputError.mk "no structured payload found")
  | some payload =>
    match decodePayload payload with
    | none => Except.error (MalformedOutputError.mk "failed to decode structured payload")
    | some obj => validateSQLQuery obj

/-- The body of the JSON string literal encoding `s`, with delimiting
quotes. -/
def jsonStringChars (s : String) : List Char := quoteChar :: (encodeStringChars s.data ++ [quoteChar])

/-- The canonical JSON payload binding the field `query` to the string
`v`. -/
def queryPayloadChars (v : String) : List Char :=
  openBraceChar :: (jsonStringChars "query" ++ ':' :: ' ' :: jsonStringChars v) ++ [closeBraceChar]

/-! ### General lemmas about the parser -/

/-- Helper: `String.mk` after `String.data` is the identity. -/
theorem string_mk_data (s : String) : String.mk s.data = s := rfl

/-- Helper: `String.data` after `String.mk` is the identity. -/
theorem string_data_mk (l : List Char) : (String.mk l).data = l := rfl

/-- Dropping while a predicate holds skips any prefix on which it holds
everywhere. -/
theorem dropWhile_all (p : Char → Bool) :
    ∀ l1 l2 : List Char, (∀ c ∈ l1, p c = true) →
      List.dropWhile p (l1 ++ l2) = List.dropWhile p l2
  | [], l2, _ => rfl
  | c :: l1, l2, h => by
    have hc : p c = true := h c (by simp)
    simp only [List.cons_append, List.dropWhile_cons, hc, if_true]
    exact dropWhile_all p l1 l2 (fun d hd => h d (by simp [hd]))

/-- Decoding a JSON string body inverts encoding: parsing the encoded
characters followed by a closing quote yields the original characters
and the remaining input. -/
theorem parseStringAux_encode (rest : List Char) :
    ∀ s : List Char, parseStringAux false (encodeStringChars s ++ quoteChar :: rest) = some (s, rest)
  | [] => by simp [encodeStringChars, parseStringAux]
  | c :: cs => by
    have ih := parseStringAux_encode rest cs
    have hbq : ¬ backslashChar = quoteChar := by decide
    have hnlq : ¬ ('\n' = quoteChar) := by decide
    have hnlb : ¬ ('\n' = backslashChar) := by decide
    have htbq : ¬ ('\t' = quoteChar) := by decide
    have htbb : ¬ ('\t' = backslashChar) := by decide
    have htbn : ¬ ('\t' = '\n') := by decide
    have hcrq : ¬ ('\r' = quoteChar) := by decide
    have hcrb : ¬ ('\r' = backslashChar) := by decide
    have hcrn : ¬ ('\r' = '\n') := by decide
    have hcrt : ¬ ('\r' = '\t') := by decide
    have henq : ¬ ('n' = quoteChar) := by decide
    have henb : ¬ ('n' = backslashChar) := by decide
    have hens : ¬ ('n' = '/') := by decide
    have hetq : ¬ ('t' = quoteChar) := by decide
    have hetb : ¬ ('t' = backslashChar) := by decide
    have hets : ¬ ('t' = '/') := by decide
    have hetn : ¬ ('t' = 'n') := by decide
    have herq : ¬ ('r' = quoteChar) := by decide
    have herb : ¬ ('r' = backslashChar) := by decide
    have hers : ¬ ('r' = '/') := by decide
    have hern : ¬ ('r' = 'n') := by decide
    have hert : ¬ ('r' = 't') := by decide
    by_cases h1 : c = quoteChar
    · subst h1
      simp [encodeStringChars, escEncodeChar, parseStringAux, escDecode, hbq, ih]
    · by_cases h2 : c = backslashChar
      · subst h2
        simp [encodeStringChars, escEncodeChar, parseStringAux, escDecode, hbq, ih]
      · by_cases h3 : c = '\n'
        · subst h3
          simp [encodeStringChars, escEncodeChar, parseStringAux, escDecode, hbq,
            hnlq, hnlb, henq, henb, hens, ih]
        · by_cases h4 : c = '\t'
          · subst h4
            simp [encodeStringChars, escEncodeChar, parseStringAux, escDecode, hbq,
              htbq, htbb, htbn, hetq, hetb, hets, hetn, ih]
          · by_cases h5 : c = '\r'
            · subst h5
              simp [encodeStringChars, escEncodeChar, parseStringAux, escDecode, hbq,
                hcrq, hcrb, hcrn, hcrt, herq, herb, hers, hern, hert, ih]
            · simp [encodeStringChars, escEncodeChar, parseStringAux, h1, h2, h3, h4, h5, ih]

/-- Round trip for the wrapper `parseStringChars`. -/
theorem parseStringChars_encode (rest s : List Char) :
    parseStringChars (encodeStringChars s ++ quoteChar :: rest) = some (s, rest) :=
  parseStringAux_encode rest s

/-- Extraction finds exactly the brace-delimited payload when the
preceding prose has no opening brace and the following prose has no
closing brace. -/
theorem extractPayload_embed (pre post mid : List Char)
    (hpre : ∀ c ∈ pre, ¬ c = openBraceChar) (hpost : ∀ c ∈ post, ¬ c = closeBraceChar) :
    extractPayload (pre ++ (openBraceChar :: mid ++ [closeBraceChar]) ++ post)
      = some (openBraceChar :: mid ++ [closeBraceChar]) := by
  have hop : ¬ openBraceChar = closeBraceChar := by decide
  have h1 : List.dropWhile (fun c => !(c = openBraceChar))
      ((pre ++ (openBraceChar :: mid ++ [closeBraceChar]) ++ post))
      = openBraceChar :: (mid ++ [closeBraceChar] ++ post) := by
    rw [List.append_assoc, dropWhile_all _ pre _ (fun c hc => by simp [hpre c hc])]
    simp [List.dropWhile_cons]
  have h2 : List.dropWhile (fun c => !(c = closeBraceChar))
      ((openBraceChar :: (mid ++ [closeBraceChar] ++ post)).reverse)
      = closeBraceChar :: (mid.reverse ++ [openBraceChar]) := by
    have : (openBraceChar :: (mid ++ [closeBraceChar] ++ post)).reverse
        = post.reverse ++ (closeBraceChar :: (mid.reverse ++ [openBraceChar])) := by
      simp
    rw [this, dropWhile_all _ post.reverse _ (fun c hc => by
      simp [hpost c (List.mem_reverse.mp hc)])]
    simp [List.dropWhile_cons]
  simp only [extractPayload, h1, h2]
  simp

/-- Skipping whitespace stops at a non-whitespace head. -/
theorem skipWs_cons_false (c : Char) (h : isWsChar c = false) (l : List Char) :
    skipWs (c :: l) = c :: l := by
  simp [skipWs, List.dropWhile_cons, h]

/-- Skipping whitespace drops a whitespace head. -/
theorem skipWs_cons_true (c : Char) (h : isWsChar c = true) (l : List Char) :
    skipWs (c :: l) = skipWs l := by
  simp [skipWs, List.dropWhile_cons, h]

/-- Skipping whitespace in the empty input. -/
theorem skipWs_nil : skipWs [] = [] := rfl

/-- Decoding the canonical query payload yields exactly the
single-field object binding `query` to `v`. -/
theorem decodePayload_queryPayload (v : String) :
    decodePayload (queryPayloadChars v) = some [("query", JsonValue.str v)] := by
  have hw1 : isWsChar openBraceChar = false := by decide
  have hw2 : isWsChar quoteChar = false := by decide
  have hw3 : isWsChar closeBraceChar = false := by decide
  have hw4 : isWsChar ':' = false := by decide
  have hw5 : isWsChar ' ' = true := by decide
  have hqc : ¬ quoteChar = closeBraceChar := by decide
  have hcq : ¬ (':' = quoteChar) := by decide
  have hcc : ¬ (closeBraceChar = ',') := by decide
  -- the payload in right-nested normal form
  have hpay : queryPayloadChars v
      = openBraceChar :: quoteChar :: (encodeStringChars "query".data ++ quoteChar ::
          ':' :: ' ' :: quoteChar :: (encodeStringChars v.data ++ quoteChar :: [closeBraceChar])) := by
    simp [queryPayloadChars, jsonStringChars]
  -- decoding the value string
  have hb : parseStringAux false (encodeStringChars v.data ++ quoteChar :: [closeBraceChar])
      = some (v.data, [closeBraceChar]) := parseStringAux_encode _ _
  -- decoding the key string
  have ha : parseStringAux false (encodeStringChars "query".data ++ quoteChar ::
        ':' :: ' ' :: quoteChar :: (encodeStringChars v.data ++ quoteChar :: [closeBraceChar]))
      = some ("query".data, ':' :: ' ' :: quoteChar ::
          (encodeStringChars v.data ++ quoteChar :: [closeBraceChar])) := parseStringAux_encode _ _
  -- the value member
  have hc : parseValueChars (' ' :: quoteChar :: (encodeStringChars v.data ++ quoteChar :: [closeBraceChar]))
      = some (JsonValue.str v, [closeBraceChar]) := by
    rw [parseValueChars, skipWs_cons_true _ hw5, skipWs_cons_false _ hw2]
    simp [parseStringChars, hb, string_mk_data]
  -- the key-value pair
  have hd : parsePairChars (quoteChar :: (encodeStringChars "query".data ++ quoteChar ::
        ':' :: ' ' :: quoteChar :: (encodeStringChars v.data ++ quoteChar :: [closeBraceChar])))
      = some (("query", JsonValue.str v), [closeBraceChar]) := by
    rw [parsePairChars, skipWs_cons_false _ hw2]
    simp only [eq_self_iff_true, if_true, parseStringChars, ha, skipWs_cons_false _ hw4, hc]
  -- the member list
  have he : ∀ n : Nat, parseMembersAux (n + 1) (quoteChar :: (encodeStringChars "query".data ++ quoteChar ::
        ':' :: ' ' :: quoteChar :: (encodeStringChars v.data ++ quoteChar :: [closeBraceChar])))
      = some ([("query", JsonValue.str v)], []) := by
    intro n
    rw [parseMembersAux, hd]
    simp [skipWs_cons_false _ hw3]
  -- the object
  have hf : parseObjectChars (queryPayloadChars v) = some ([("query", JsonValue.str v)], []) := by
    rw [hpay, parseObjectChars, skipWs_cons_false _ hw1]
    simp only [eq_self_iff_true, if_true, skipWs_cons_false _ hw2]
    simp only [hqc, if_false, if_neg hqc]
    exact he _
  rw [decodePayload, hf]
  simp [skipWs_nil]

/-- Core lemma: raw text made of leading prose (without opening braces),
the canonical query payload for `v`, and trailing prose (without closing
braces) parses successfully to the record holding `v` verbatim. -/
theorem parse_embedded_core (v : String) (pre post : List Char)
    (hpre : ∀ c ∈ pre, ¬ c = openBraceChar) (hpost : ∀ c ∈ post, ¬ c = closeBraceChar) :
    parse (String.mk (pre ++ queryPayloadChars v ++ post)) = Except.ok (SQLQuery.mk v) := by
  have hx : extractPayload (pre ++ queryPayloadChars v ++ post) = some (queryPayloadChars v) :=
    extractPayload_embed pre post (jsonStringChars "query" ++ ':' :: ' ' :: jsonStringChars v) hpre hpost
  rw [parse, string_data_mk, hx]
  simp [decodePayload_queryPayload, validateSQLQuery, getField]

/-! ### Claim theorems -/

/-- C1: with system-instructions template `Schema: {schema}` and framing
template `SYS:{system_instructions} Q:{question}`, for every accumulated
variable set binding `schema` to `T` and `question` to `Q?`,
`build_prompt` resolves the system-instructions template first, then
substitutes the resolved string and the remaining variables into the
framing template, returning exactly `SYS:Schema: T Q:Q?`. -/
theorem C1_two_stage_substitution (vars : List (String × String))
    (h1 : lookupVar vars "schema" = some "T")
    (h2 : lookupVar vars "question" = some "Q?") :
    (PromptBuilder.mk "Schema: {schema}" "SYS:{system_instructions} Q:{question}" vars).build_prompt
      = Except.ok "SYS:Schema: T Q:Q?" := by
  have hsq : ¬ (("system_instructions" : String) = "question") := by decide
  simp [PromptBuilder.build_prompt, substChars, substPlaceholder, lookupVar,
    openBraceChar, closeBraceChar, h1, h2, hsq]

/-- Witness for C1 at the concrete variable set of the specification
example. -/
theorem C1_witness :
    (PromptBuilder.mk "Schema: {schema}" "SYS:{system_instructions} Q:{question}"
        [("schema", "T"), ("question", "Q?")]).build_prompt = Except.ok "SYS:Schema: T Q:Q?" :=
  C1_two_stage_substitution [("schema", "T"), ("question", "Q?")] (by decide) (by decide)

/-- C7: `build_prompt` is idempotent with respect to repetition: two
builds with no intervening `add_variables` step produce the same output,
namely the formatted prompt of the current state. -/
theorem C7_build_prompt_idempotent (b : PromptBuilder) :
    (applyOp b BuilderOp.build).2 = (applyOp (applyOp b BuilderOp.build).1 BuilderOp.build).2
      ∧ (applyOp b BuilderOp.build).2 = some b.build_prompt :=
  ⟨rfl, rfl⟩

/-- C9: `build_prompt` does not mutate the builder state: after a build
step the whole state (both templates and the accumulated variable set)
is unchanged and no output is cached in it, while an `add_variables`
step changes at most the variable set, never the caller's templates. -/
theorem C9_build_prompt_frame (b : PromptBuilder) :
    (applyOp b BuilderOp.build).1 = b
      ∧ (∀ m, (applyOp b (BuilderOp.addVars m)).1.system_instructions = b.system_instructions
          ∧ (applyOp b (BuilderOp.addVars m)).1.prompt = b.prompt) :=
  ⟨rfl, fun _ => ⟨rfl, rfl⟩⟩

/-- C6: `add_variables` has last-write-wins override semantics: after
binding `k` to `v1` and then to `v2` in separate calls, lookups for `k`
yield `v2`, lookups for any other key are unchanged, and building the
specification's example (`a` bound to `1` then `2`, template `{a}`)
substitutes `2`, never `1`. -/
theorem C6_add_variables_override (b : PromptBuilder) (k v1 v2 : String) :
    lookupVar (((b.add_variables [(k, v1)]).add_variables [(k, v2)]).vars) k = some v2
      ∧ (∀ kq, ¬ k = kq →
          lookupVar (((b.add_variables [(k, v1)]).add_variables [(k, v2)]).vars) kq
            = lookupVar b.vars kq)
      ∧ (((PromptBuilder.mk "{a}" "{system_instructions}" []).add_variables
            [("a", "1")]).add_variables [("a", "2")]).build_prompt = Except.ok "2" := by
  refine ⟨?_, ?_, rfl⟩
  · simp [PromptBuilder.add_variables, lookupVar]
  · intro kq hkq
    simp [PromptBuilder.add_variables, lookupVar, hkq]

/-- Witness for C6 at concrete keys and values. -/
theorem C6_witness :
    lookupVar ((((PromptBuilder.mk "t" "u" [("b", "0")]).add_variables
        [("a", "1")]).add_variables [("a", "2")]).vars) "a" = some "2"
      ∧ lookupVar ((((PromptBuilder.mk "t" "u" [("b", "0")]).add_variables
          [("a", "1")]).add_variables [("a", "2")]).vars) "b"
        = lookupVar (PromptBuilder.mk "t" "u" [("b", "0")]).vars "b" :=
  ⟨(C6_add_variables_override (PromptBuilder.mk "t" "u" [("b", "0")]) "a" "1" "2").1,
    (C6_add_variables_override (PromptBuilder.mk "t" "u" [("b", "0")]) "a" "1" "2").2.1 "b" (by decide)⟩

/-- C3: a placeholder of either template with no corresponding entry in
the accumulated variable set makes `build_prompt` fail with a
`missingVariable` error (never a silent empty substitution or a literal
placeholder in the output); once every placeholder is bound — the name
`system_instructions` of the framing template being bound at build time
by the resolved first stage — `build_prompt`, also after an
`add_variables` call supplying the missing binding, succeeds. -/
theorem C3_missing_variable_error (b : PromptBuilder) :
    ((∃ n ∈ phChars b.system_instructions.data, lookupVar b.vars n = none) →
      ∃ k, b.build_prompt = Except.error (BuildError.missingVariable k))
    ∧ ((∀ n ∈ phChars b.system_instructions.data, (lookupVar b.vars n).isSome = true) →
      wfChars b.system_instructions.data = true →
      (∃ n ∈ phChars b.prompt.data, ¬ n = "system_instructions" ∧ lookupVar b.vars n = none) →
      ∃ k, b.build_prompt = Except.error (BuildError.missingVariable k))
    ∧ (∀ m : List (String × String),
      wfChars b.system_instructions.data = true → wfChars b.prompt.data = true →
      (∀ n ∈ phChars b.system_instructions.data, (lookupVar (b.add_variables m).vars n).isSome = true) →
      (∀ n ∈ phChars b.prompt.data, ¬ n = "system_instructions" →
        (lookupVar (b.add_variables m).vars n).isSome = true) →
      ∃ s, (b.add_variables m).build_prompt = Except.ok s) := by
  refine ⟨?_, ?_, ?_⟩
  · intro hex
    obtain ⟨k, hk, _⟩ := (subst_missing b.vars b.system_instructions.data).1 hex
    exact ⟨k, by simp only [PromptBuilder.build_prompt, hk]⟩
  · intro hall hwf hex
    obtain ⟨sys, hsys⟩ := (subst_total b.vars b.system_instructions.data).1 hwf hall
    have hex' : ∃ n ∈ phChars b.prompt.data,
        lookupVar (("system_instructions", String.mk sys) :: b.vars) n = none := by
      obtain ⟨n, hn, hne, hnone⟩ := hex
      refine ⟨n, hn, ?_⟩
      have : ¬ (("system_instructions" : String) = n) := fun h => hne h.symm
      simp [lookupVar, this, hnone]
    obtain ⟨k, hk, _⟩ :=
      (subst_missing (("system_instructions", String.mk sys) :: b.vars) b.prompt.data).1 hex'
    exact ⟨k, by simp only [PromptBuilder.build_prompt, hsys, hk]⟩
  · intro m hwf1 hwf2 hall1 hall2
    obtain ⟨sys, hsys⟩ := (subst_total (b.add_variables m).vars b.system_instructions.data).1 hwf1 hall1
    have hall2' : ∀ n ∈ phChars b.prompt.data,
        (lookupVar (("system_instructions", String.mk sys) :: (b.add_variables m).vars) n).isSome = true := by
      intro n hn
      by_cases hs : ("system_instructions" : String) = n
      · simp [lookupVar, hs]
      · simp only [lookupVar, hs, if_false, if_neg hs]
        exact hall2 n hn (fun h => hs h.symm)
    obtain ⟨out, hout⟩ :=
      (subst_total (("system_instructions", String.mk sys) :: (b.add_variables m).vars) b.prompt.data).1
        hwf2 hall2'
    have hts : (b.add_variables m).system_instructions = b.system_instructions := rfl
    have htp : (b.add_variables m).prompt = b.prompt := rfl
    exact ⟨String.mk out, by simp only [PromptBuilder.build_prompt, hts, htp, hsys, hout]⟩

/-- Witness for C3: a builder missing the `schema` binding fails with a
missing-variable error; after supplying `schema` via `add_variables` the
build succeeds. -/
theorem C3_witness :
    (∃ k, (PromptBuilder.mk "Schema: {schema}" "SYS:{system_instructions} Q:{question}"
        [("question", "Q?")]).build_prompt = Except.error (BuildError.missingVariable k))
    ∧ (∃ s, ((PromptBuilder.mk "Schema: {schema}" "SYS:{system_instructions} Q:{question}"
        [("question", "Q?")]).add_variables [("schema", "T")]).build_prompt = Except.ok s) :=
  ⟨(C3_missing_variable_error (PromptBuilder.mk "Schema: {schema}"
      "SYS:{system_instructions} Q:{question}" [("question", "Q?")])).1 (by decide),
    (C3_missing_variable_error (PromptBuilder.mk "Schema: {schema}"
      "SYS:{system_instructions} Q:{question}" [("question", "Q?")])).2.2
      [("schema", "T")] (by decide) (by decide) (by decide) (by decide)⟩

/-- C8: adding a variable whose key matches no placeholder of either
template raises no error and leaves the built prompt unchanged. -/
theorem C8_unknown_keys_ignored (b : PromptBuilder) (k v : String)
    (h1 : k ∉ phChars b.system_instructions.data) (h2 : k ∉ phChars b.prompt.data) :
    (b.add_variables [(k, v)]).build_prompt = b.build_prompt := by
  have hvars : (b.add_variables [(k, v)]).vars = (k, v) :: b.vars := by
    simp [PromptBuilder.add_variables]
  have hinner : substChars ((k, v) :: b.vars) b.system_instructions.data
      = substChars b.vars b.system_instructions.data := by
    apply (subst_congr _ _ _).1
    intro n hn
    have hnk : ¬ (k = n) := fun h => h1 (by rw [h]; exact hn)
    simp [lookupVar, hnk]
  have hts : (b.add_variables [(k, v)]).system_instructions = b.system_instructions := rfl
  have htp : (b.add_variables [(k, v)]).prompt = b.prompt := rfl
  simp only [PromptBuilder.build_prompt, hts, htp, hvars, hinner]
  cases hsys : substChars b.vars b.system_instructions.data with
  | error e => simp
  | ok sys =>
    have houter : substChars (("system_instructions", String.mk sys) :: (k, v) :: b.vars) b.prompt.data
        = substChars (("system_instructions", String.mk sys) :: b.vars) b.prompt.data := by
      apply (subst_congr _ _ _).1
      intro n hn
      by_cases hs : ("system_instructions" : String) = n
      · simp [lookupVar, hs]
      · have hnk : ¬ (k = n) := fun h => h2 (by rw [h]; exact hn)
        simp [lookupVar, hs, hnk]
    simp [houter]

/-- Witness for C8: adding an unused binding to the specification's
example builder leaves the built prompt unchanged. -/
theorem C8_witness :
    ((PromptBuilder.mk "Schema: {schema}" "SYS:{system_instructions} Q:{question}"
        [("schema", "T"), ("question", "Q?")]).add_variables [("unused", "x")]).build_prompt
      = (PromptBuilder.mk "Schema: {schema}" "SYS:{system_instructions} Q:{question}"
        [("schema", "T"), ("question", "Q?")]).build_prompt :=
  C8_unknown_keys_ignored (PromptBuilder.mk "Schema: {schema}"
    "SYS:{system_instructions} Q:{question}" [("schema", "T"), ("question", "Q?")])
    "unused" "x" (by decide) (by decide)

/-- C2: `parse` returns a validated record exactly when the raw text
contains a decodable structured payload conforming to the schema, and
otherwise raises `MalformedOutputError` without coercing a best-effort
value: the payload binding `query` to `SELECT 1` parses to a record with
that query, plain prose and a payload missing the required field both
fail, a wrong-typed `query` fails, and every successful parse comes from
a decoded payload whose `query` field is exactly the returned string. -/
theorem C2_parse_round_trip :
    parse "\x7b\"query\": \"SELECT 1\"\x7d" = Except.ok (SQLQuery.mk "SELECT 1")
    ∧ parse "not json at all" = Except.error (MalformedOutputError.mk "no structured payload found")
    ∧ parse "\x7b\"nope\": \"x\"\x7d" = Except.error (MalformedOutputError.mk "missing required field: query")
    ∧ parse "\x7b\"query\": 5\x7d" = Except.error (MalformedOutputError.mk "field query has wrong type")
    ∧ (∀ (raw : String) (r : SQLQuery), parse raw = Except.ok r →
        ∃ payload obj, extractPayload raw.data = some payload ∧ decodePayload payload = some obj
          ∧ getField obj "query" = some (JsonValue.str r.query)) := by
  refine ⟨rfl, rfl, rfl, rfl, ?_⟩
  intro raw r h
  rw [parse] at h
  cases hx : extractPayload raw.data with
  | none => rw [hx] at h; simp at h
  | some payload =>
    rw [hx] at h
    simp only [] at h
    cases hd : decodePayload payload with
    | none => rw [hd] at h; simp at h
    | some obj =>
      rw [hd] at h
      simp only [] at h
      refine ⟨payload, obj, rfl, hd, ?_⟩
      rw [validateSQLQuery] at h
      cases hg : getField obj "query" with
      | none => rw [hg] at h; simp at h
      | some jv =>
        rw [hg] at h
        cases jv with
        | str s =>
          simp at h
          subst h
          rfl
        | num n => simp at h

/-- Witness for C2: the general only-if direction at the concrete
round-trip input. -/
theorem C2_witness :
    ∃ payload obj, extractPayload ("\x7b\"query\": \"SELECT 1\"\x7d" : String).data = some payload
      ∧ decodePayload payload = some obj
      ∧ getField obj "query" = some (JsonValue.str "SELECT 1") :=
  C2_parse_round_trip.2.2.2.2 "\x7b\"query\": \"SELECT 1\"\x7d" (SQLQuery.mk "SELECT 1")
    C2_parse_round_trip.1

/-- C4: a payload embedded in surrounding prose and code fencing is
extracted and validated: the specification's fenced example yields
`SELECT 2`, and for every string `v` the canonical payload for `v`
wrapped in the same prose and fencing parses to a record whose query
equals `v`. -/
theorem C4_embedded_payload_extraction (v : String) :
    parse "Here is the answer:\n```json\n\x7b\"query\": \"SELECT 2\"\x7d\n```"
      = Except.ok (SQLQuery.mk "SELECT 2")
    ∧ parse (String.mk ("Here is the answer:\n```json\n".data ++ queryPayloadChars v ++ "\n```".data))
      = Except.ok (SQLQuery.mk v) :=
  ⟨rfl, parse_embedded_core v "Here is the answer:\n```json\n".data "\n```".data
    (by decide) (by decide)⟩

/-- C5 counterexample: the claim says a payload binding `query` to the
empty string makes `parse` raise `MalformedOutputError`, but the
notebook schema declares `query: str` with no non-emptiness constraint,
so the empty string is accepted and a record with an empty query is
exposed to the caller. -/
theorem C5_counterexample : parse "\x7b\"query\": \"\"\x7d" = Except.ok (SQLQuery.mk "") := rfl

/-- C5 (amended): the parser enforces that `query` is present and of
string type — a missing or wrong-typed `query` raises
`MalformedOutputError` — but it does not enforce non-emptiness: a
payload binding `query` to the empty string is accepted and yields a
record with an empty query field. -/
theorem C5_required_string_field :
    parse "\x7b\"query\": \"\"\x7d" = Except.ok (SQLQuery.mk "")
    ∧ parse "\x7b\x7d" = Except.error (MalformedOutputError.mk "missing required field: query")
    ∧ parse "\x7b\"query\": 7\x7d" = Except.error (MalformedOutputError.mk "field query has wrong type") :=
  ⟨rfl, rfl, rfl⟩

/-- C10: a successful parse preserves the payload's field value
verbatim: for every string `v` and surrounding prose (no opening brace
before, no closing brace after the payload), the returned record's query
is character-for-character equal to `v`, with no trimming or
normalization. -/
theorem C10_value_preserved_verbatim (v pre post : String)
    (hpre : ∀ c ∈ pre.data, ¬ c = openBraceChar)
    (hpost : ∀ c ∈ post.data, ¬ c = closeBraceChar) :
    parse (String.mk (pre.data ++ queryPayloadChars v ++ post.data)) = Except.ok (SQLQuery.mk v) :=
  parse_embedded_core v pre.data post.data hpre hpost

/-- Witness for C10 at a value with leading and trailing spaces,
demonstrating that no trimming is applied. -/
theorem C10_witness :
    parse (String.mk ("model says: ".data ++ queryPayloadChars "  SELECT * FROM nba_roster;  "
        ++ " done".data)) = Except.ok (SQLQuery.mk "  SELECT * FROM nba_roster;  ") :=
  C10_value_preserved_verbatim "  SELECT * FROM nba_roster;  " "model says: " " done"
    (by decide) (by decide)

/-- Witness for C4 at a concrete value. -/
theorem C4_witness :
    parse (String.mk ("Here is the answer:\n```json\n".data ++ queryPayloadChars "SELECT 3"
        ++ "\n```".data)) = Except.ok (SQLQuery.mk "SELECT 3") :=
  (C4_embedded_payload_extraction "SELECT 3").2

/-- Witness for C7 at a concrete builder. -/
theorem C7_witness :
    (applyOp (PromptBuilder.mk "{a}" "{system_instructions}" [("a", "1")]) BuilderOp.build).2
      = (applyOp (applyOp (PromptBuilder.mk "{a}" "{system_instructions}" [("a", "1")])
          BuilderOp.build).1 BuilderOp.build).2 :=
  (C7_build_prompt_idempotent (PromptBuilder.mk "{a}" "{system_instructions}" [("a", "1")])).1

/-- Witness for C9 at a concrete builder. -/
theorem C9_witness :
    (applyOp (PromptBuilder.mk "{a}" "{system_instructions}" [("a", "1")]) BuilderOp.build).1
      = PromptBuilder.mk "{a}" "{system_instructions}" [("a", "1")] :=
  (C9_build_prompt_frame (PromptBuilder.mk "{a}" "{system_instructions}" [("a", "1")])).1
